import Mathlib

/-!
Verification of the resume relevance-check scoring pipeline.

Shallow embedding of the scoring services of the repository:
  app/services/evaluation_pipeline.py   (EvaluationPipeline)
  app/services/evaluation_service.py    (EvaluationService)
  app/services/ats_compatibility_service.py (ATSCompatibilityChecker)
  app/services/embedding_service.py     (EmbeddingService)

Python floats are modelled as rationals (the embedding service, which uses
math.log and math.sqrt, is modelled over the reals); Python lists as Lean
lists, Python sets as Finsets; Python strings as Lean strings, with the
ASCII reading of the character classes of the regexes involved.
-/

namespace ResumeCheck

/-- Resume-side record: the fields of resume_data read by the scoring
services (skills, education, experience lists and the extracted text). -/
structure ResumeData where
  skills : List String
  education : List String
  experience : List String
  extracted_text : String
deriving DecidableEq

/-- Job-side record: the fields of jd_data read by the scoring services. -/
structure JdData where
  description : String
  must_have_skills : List String
  good_to_have_skills : List String
  qualifications : List String
deriving DecidableEq

/-- Python str.lower with the ASCII reading, written on the character list
of the string so that it reduces structurally. -/
def lowerString (s : String) : String := ⟨s.data.map Char.toLower⟩

/-- Python str.split with no argument: split on runs of whitespace,
dropping empty pieces. -/
def wordsAux : List Char → List Char → List String
  | [], acc => if acc.isEmpty then [] else [acc.reverse.asString]
  | c :: rest, acc =>
    if c.isWhitespace then
      (if acc.isEmpty then [] else [acc.reverse.asString]) ++ wordsAux rest []
    else wordsAux rest (c :: acc)

/-! ## Keyword (lexical) scoring
From EvaluationPipeline._keyword_analysis (evaluation_pipeline.py lines
171-210); EvaluationService._calculate_keyword_score (evaluation_service.py
lines 75-100) is the same computation. -/

/-- The lowered skill list: s.lower() for each s in the resume skills. -/
def lowerSkills (resume : ResumeData) : List String :=
  resume.skills.map (fun s => lowerString s)

/-- The requirement items of req found case-insensitively in the resume
skills: the items satisfying skill.lower() in [s.lower() for s in skills]. -/
def foundSkills (req : List String) (resume : ResumeData) : List String :=
  req.filter (fun skill => (lowerSkills resume).contains (lowerString skill))

/-- sum(1 for skill in req if skill.lower() in [s.lower() for s in skills]). -/
def countFound (req : List String) (resume : ResumeData) : Nat :=
  (foundSkills req resume).length

/-- EvaluationPipeline._keyword_analysis keyword score: 0 when there are no
requirements at all, otherwise (must_have_score + good_to_have_score) * 100
with weights 0.7 and 0.3 on the per-set coverages. -/
def calculateKeywordScore (resume : ResumeData) (jd : JdData) : ℚ :=
  let total := jd.must_have_skills.length + jd.good_to_have_skills.length
  if total = 0 then 0
  else
    let found_must_have := countFound jd.must_have_skills resume
    let found_good_to_have := countFound jd.good_to_have_skills resume
    let must_have_score : ℚ :=
      if 0 < jd.must_have_skills.length then
        ((found_must_have : ℚ) / (jd.must_have_skills.length : ℚ)) * 0.7
      else 0
    let good_to_have_score : ℚ :=
      if 0 < jd.good_to_have_skills.length then
        ((found_good_to_have : ℚ) / (jd.good_to_have_skills.length : ℚ)) * 0.3
      else 0
    (must_have_score + good_to_have_score) * 100

/-! ## Verdict
From EvaluationService._generate_verdict (evaluation_service.py lines
131-138); EvaluationPipeline._score_calculation (evaluation_pipeline.py
lines 266-272) inlines the same three-way branch. -/

/-- Verdict from the final score: High at 80 and above, Medium at 60 and
above, otherwise Low. -/
def generateVerdict (final_score : ℚ) : String :=
  if 80 ≤ final_score then "High"
  else if 60 ≤ final_score then "Medium"
  else "Low"

/-! ## Gap analysis
From EvaluationPipeline._find_missing_elements (evaluation_pipeline.py
lines 328-343). -/

/-- Contiguous-subsequence test on character lists: the Python substring
operator a in b. -/
def containsSeq (pat : List Char) : List Char → Bool
  | [] => pat.isEmpty
  | c :: rest => pat.isPrefixOf (c :: rest) || containsSeq pat rest

/-- Missing elements record returned by _find_missing_elements. -/
structure MissingElements where
  missing_skills : List String
  missing_qualifications : List String
deriving DecidableEq

/-- EvaluationPipeline._find_missing_elements: must-have skills with no
case-insensitive match in the resume skills, and qualifications whose
lowercased text is not a substring of the space-joined lowercased
education list. -/
def findMissingElements (resume : ResumeData) (jd : JdData) : MissingElements :=
  { missing_skills := jd.must_have_skills.filter
      (fun skill => !((lowerSkills resume).contains (lowerString skill)))
    missing_qualifications := jd.qualifications.filter
      (fun qual => !(containsSeq (lowerString qual).toList
        (lowerString (String.intercalate " " resume.education)).toList)) }

/-! ## ATS compatibility checker
From ATSCompatibilityChecker.check_compatibility
(ats_compatibility_service.py lines 27-109). The regex patterns of
self.ats_problems and the contact patterns are embedded as direct scanners
over the character list of the text (ASCII reading of the classes). -/

/-- Word characters of the regex class backslash-w (ASCII reading). -/
def isWordChar (c : Char) : Bool := c.isAlphanum || c == '_'

/-- Existence of a match of a pattern of the shape tag [^>]* > in the text:
some occurrence of the tag followed later by a closing angle bracket.
Used (on the lowercased text, matching re.IGNORECASE) for the patterns
of tables, images, headers_footers and text_boxes. -/
def hasTagMatch (tag : List Char) : List Char → Bool
  | [] => false
  | c :: rest =>
    (tag.isPrefixOf (c :: rest) && ((c :: rest).drop tag.length).contains '>')
      || hasTagMatch tag rest

/-- Existence of a match of a pattern of the shape tag [^>]* style [^>]* > :
some occurrence of the tag whose segment up to the first closing angle
bracket contains the word style, with that bracket present. Used for the
complex_formatting pattern with the div and span tags. -/
def hasStyledTagMatch (tag : List Char) : List Char → Bool
  | [] => false
  | c :: rest =>
    (tag.isPrefixOf (c :: rest) &&
      ((c :: rest).drop tag.length).contains '>' &&
      containsSeq "style".toList
        (((c :: rest).drop tag.length).takeWhile (fun d => d != '>')))
      || hasStyledTagMatch tag rest

/-- Characters NOT matched by the special_chars class
[^ backslash-w backslash-s . , ; : ! ? - ( ) [ ] braces quote apostrophe / backslash ]. -/
def isAllowedChar (c : Char) : Bool :=
  isWordChar c || c.isWhitespace ||
  ['.', ',', ';', ':', '!', '?', '-', '(', ')', '[', ']',
    Char.ofNat 123, Char.ofNat 125, '\"', '\'', '/', '\\'].contains c

/-- Number of matches of the special_chars pattern: the characters of the
text outside the allowed class. -/
def specialCharCount (text : String) : Nat :=
  (text.toList.filter (fun c => !isAllowedChar c)).length

/-! ### Contact patterns -/

/-- Local-part class [A-Za-z0-9._%+-] of the email pattern. -/
def isEmailLocalChar (c : Char) : Bool :=
  c.isAlphanum || ['.', '_', '%', '+', '-'].contains c

/-- Domain class [A-Za-z0-9.-] of the email pattern. -/
def isEmailDomainChar (c : Char) : Bool :=
  c.isAlphanum || ['.', '-'].contains c

/-- Top-level-domain class [A-Z|a-z] of the email pattern (the class
literally contains the bar character). -/
def isEmailTldChar (c : Char) : Bool := c.isAlpha || c == '|'

/-- Word-boundary test between two adjacent characters. -/
def boundaryBetween (a b : Char) : Bool := isWordChar a != isWordChar b

/-- Match of the email-pattern tail [A-Z|a-z]{2,} followed by a word
boundary, having already consumed the given number of class characters,
the last of them prev. -/
def emailTldScan (consumed : Nat) (prev : Char) : List Char → Bool
  | [] => decide (2 ≤ consumed) && isWordChar prev
  | c :: rest =>
    (decide (2 ≤ consumed) && boundaryBetween prev c)
      || (isEmailTldChar c && emailTldScan (consumed + 1) c rest)

/-- Match of the email-pattern tail [A-Za-z0-9.-]+ . [A-Z|a-z]{2,} with a
final word boundary, having already consumed the given number of domain
characters; the dot may close the domain at any point (backtracking). -/
def emailDomainScan (consumed : Nat) : List Char → Bool
  | [] => false
  | c :: rest =>
    (decide (1 ≤ consumed) && c == '.' && emailTldScan 0 '.' rest)
      || (isEmailDomainChar c && emailDomainScan (consumed + 1) rest)

/-- Match of [A-Za-z0-9._%+-]+ @ followed by the domain tail, having
already consumed the given number of local characters. -/
def emailLocalScan (consumed : Nat) : List Char → Bool
  | [] => false
  | c :: rest =>
    (decide (1 ≤ consumed) && c == '@' && emailDomainScan 0 rest)
      || (isEmailLocalChar c && emailLocalScan (consumed + 1) rest)

/-- Word boundary before a match starting with character c, given the
preceding character (none at the start of the string). -/
def startBoundary (prev : Option Char) (c : Char) : Bool :=
  match prev with
  | none => isWordChar c
  | some p => boundaryBetween p c

/-- Search for the email pattern at every start position, tracking the
previous character for the leading word boundary. -/
def emailSearch (prev : Option Char) : List Char → Bool
  | [] => false
  | c :: rest =>
    (isEmailLocalChar c && startBoundary prev c && emailLocalScan 0 (c :: rest))
      || emailSearch (some c) rest

/-- re.search of the email contact pattern on the text. -/
def emailFound (text : String) : Bool := emailSearch none text.toList

/-- Separator class [-. backslash-s] of the phone pattern. -/
def isSepChar (c : Char) : Bool := c == '-' || c == '.' || c.isWhitespace

/-- Consume exactly n digit characters, returning the rest on success. -/
def takeDigits : Nat → List Char → Option (List Char)
  | 0, l => some l
  | _ + 1, [] => none
  | n + 1, c :: rest => if c.isDigit then takeDigits n rest else none

/-- Drop a single leading character k if present (the optional pieces of
the phone pattern; each optional class is disjoint from the digit class
that follows it, so greedy consumption matches backtracking). -/
def dropOptional (k : Char → Bool) (l : List Char) : List Char :=
  match l with
  | [] => []
  | c :: rest => if k c then rest else c :: rest

/-- Match of the phone pattern ( ? digits{3} ) ? sep? digits{3} sep?
digits{4} starting exactly at this position. -/
def phoneMatchAt (l : List Char) : Bool :=
  let l1 := dropOptional (fun c => c == '(') l
  match takeDigits 3 l1 with
  | none => false
  | some l2 =>
    let l3 := dropOptional (fun c => c == ')') l2
    let l4 := dropOptional isSepChar l3
    match takeDigits 3 l4 with
    | none => false
    | some l5 =>
      let l6 := dropOptional isSepChar l5
      (takeDigits 4 l6).isSome

/-- Search for the phone pattern at every start position. -/
def phoneSearch : List Char → Bool
  | [] => false
  | c :: rest => phoneMatchAt (c :: rest) || phoneSearch rest

/-- re.search of the phone contact pattern on the text. -/
def phoneFound (text : String) : Bool := phoneSearch text.toList

/-! ### The checker itself -/

/-- Result record of check_compatibility (dataclass
ATSCompatibilityResult). -/
structure ATSCompatibilityResult where
  is_ats_friendly : Bool
  score : ℚ
  main_issues : List String
  quick_fixes : List String
deriving DecidableEq

/-- One conditional penalty step of check_compatibility: when the flag
holds, append the issue and subtract the penalty. -/
def penalize (flag : Bool) (issue : String) (penalty : ℚ)
    (acc : List String × ℚ) : List String × ℚ :=
  if flag then (acc.1 ++ [issue], acc.2 - penalty) else acc

/-- The issue list and raw score accumulated by check_compatibility before
the floor at 0, applying the penalty steps in source order: the seven
ats_problems patterns, the three essential-content checks, then the
contact-information check. -/
def atsDetect (resume_text : String) (resume_data : ResumeData) :
    List String × ℚ :=
  let lc := (lowerString resume_text).toList
  let contact_found :=
    (if emailFound resume_text then 1 else 0)
      + (if phoneFound resume_text then 1 else 0)
  penalize (decide (contact_found < 2)) "Incomplete contact information" 10
    (penalize resume_data.education.isEmpty "Missing education section" 15
      (penalize resume_data.experience.isEmpty "Missing experience section" 25
        (penalize resume_data.skills.isEmpty "Missing skills section" 20
          (penalize (hasTagMatch "<input".toList lc
                || hasTagMatch "<textarea".toList lc) "Interactive elements" 20
            (penalize (hasTagMatch "<header".toList lc
                  || hasTagMatch "<footer".toList lc) "Headers/footers detected" 15
              (penalize (containsSeq "column-count".toList lc
                    || containsSeq "column-width".toList lc
                    || containsSeq "column-gap".toList lc) "Multi-column layout" 20
                (penalize (hasTagMatch "<img".toList lc) "Contains images" 25
                  (penalize (decide (10 < specialCharCount resume_text))
                      "Too many special characters" 15
                    (penalize (hasStyledTagMatch "<div".toList lc
                          || hasStyledTagMatch "<span".toList lc)
                        "Complex formatting detected" 20
                      (penalize (hasTagMatch "<table".toList lc)
                          "Contains tables" 30 ([], 100)))))))))))

/-- ATSCompatibilityChecker.check_compatibility: runs the detection steps,
sets the friendly flag at raw score 70 and above, builds the quick fixes
only when not friendly, floors the score at 0 and truncates the issue and
fix lists to three entries in detection order. -/
def checkCompatibility (resume_text : String) (resume_data : ResumeData) :
    ATSCompatibilityResult :=
  let det := atsDetect resume_text resume_data
  let issues := det.1
  let score := det.2
  let is_ats_friendly := decide (70 ≤ score)
  let quick_fixes : List String :=
    if is_ats_friendly then []
    else
      (if issues.contains "Contains tables"
        then ["Convert tables to plain text"] else [])
      ++ (if issues.contains "Complex formatting detected"
        then ["Use simple formatting"] else [])
      ++ (if issues.contains "Contains images"
        then ["Remove images and graphics"] else [])
      ++ (if issues.contains "Missing skills section"
        then ["Add a skills section"] else [])
      ++ (if issues.contains "Missing experience section"
        then ["Add work experience"] else [])
      ++ (if issues.contains "Missing education section"
        then ["Add education details"] else [])
      ++ (if issues.contains "Incomplete contact information"
        then ["Add email and phone number"] else [])
  { is_ats_friendly := is_ats_friendly
    score := max 0 score
    main_issues := issues.take 3
    quick_fixes := quick_fixes.take 3 }

/-! ## Evaluation pipeline
From EvaluationPipeline._basic_evaluation_pipeline and the step methods
(evaluation_pipeline.py lines 126-343). The LangGraph variant runs the same
node functions in the same order. The strength-analysis and
feedback-generation steps only call the external LLM service and touch no
score field, so they are omitted. The embedding-service call of
_semantic_analysis is passed in as the similarity parameter. -/

/-- The score-relevant fields of EvaluationState. -/
structure EvalState where
  resume_data : ResumeData
  jd_data : JdData
  keyword_score : ℚ
  semantic_score : ℚ
  ats_score : ℚ
  final_score : ℚ
  verdict : String
  missing_elements : MissingElements
  ats_feedback : List String

/-- Initial state built by _basic_evaluation_pipeline. -/
def initState (resume : ResumeData) (jd : JdData) : EvalState :=
  { resume_data := resume
    jd_data := jd
    keyword_score := 0
    semantic_score := 0
    ats_score := 0
    final_score := 0
    verdict := ""
    missing_elements := { missing_skills := [], missing_qualifications := [] }
    ats_feedback := [] }

/-- EvaluationPipeline._keyword_analysis as a state step. -/
def keywordAnalysis (state : EvalState) : EvalState :=
  { state with
    keyword_score := calculateKeywordScore state.resume_data state.jd_data }

/-- EvaluationPipeline._semantic_analysis as a state step: the semantic
score is the similarity of the extracted resume text and the job
description, times 100, with no clamping. -/
def semanticAnalysis (similarity : String → String → ℚ)
    (state : EvalState) : EvalState :=
  { state with
    semantic_score :=
      similarity state.resume_data.extracted_text state.jd_data.description
        * 100 }

/-- EvaluationPipeline._ats_analysis as a state step. -/
def atsAnalysis (state : EvalState) : EvalState :=
  let ats_result :=
    checkCompatibility state.resume_data.extracted_text state.resume_data
  { state with
    ats_score := ats_result.score
    ats_feedback := ats_result.quick_fixes }

/-- EvaluationPipeline._score_calculation as a state step: the fixed
0.4 / 0.4 / 0.2 weighted sum, the inline verdict branch and the gap
analysis. -/
def scoreCalculation (state : EvalState) : EvalState :=
  let final_score :=
    state.keyword_score * 0.4 + state.semantic_score * 0.4
      + state.ats_score * 0.2
  let verdict :=
    if 80 ≤ final_score then "High"
    else if 60 ≤ final_score then "Medium"
    else "Low"
  { state with
    final_score := final_score
    verdict := verdict
    missing_elements := findMissingElements state.resume_data state.jd_data }

/-- The basic evaluation pipeline: the four scoring steps run in source
order on the initial state. -/
def basicEvaluationPipeline (similarity : String → String → ℚ)
    (resume : ResumeData) (jd : JdData) : EvalState :=
  scoreCalculation (atsAnalysis (semanticAnalysis similarity
    (keywordAnalysis (initState resume jd))))

/-! ## Embedding service
From EmbeddingService (embedding_service.py). The similarity ladder:
calculate_similarity uses the sentence-transformer backend when one is
loaded (modelled as an optional function) and otherwise the local TF-IDF
similarity; _fallback_similarity is the Jaccard rung used when a rung
raises. math.log and math.sqrt force this part of the model into the
reals. -/

/-- EmbeddingService._tokenize: lowercase, replace every character outside
word characters and whitespace by a space, split on whitespace and drop
empty strings (str.split() already drops them, so the filter of the source
is absorbed by wordsAux). -/
def tokenize (text : String) : List String :=
  wordsAux ((lowerString text).toList.map
    (fun c => if isWordChar c || c.isWhitespace then c else ' ')) []

/-- Term frequency: words.count(word). -/
def tf (ws : List String) (w : String) : Nat := ws.count w

/-- Document frequency over the two-document corpus. -/
def df (ws1 ws2 : List String) (w : String) : Nat :=
  (if w ∈ ws1 then 1 else 0) + (if w ∈ ws2 then 1 else 0)

/-- IDF of _tfidf_similarity: math.log(2 / (df + 1)). -/
noncomputable def idf (ws1 ws2 : List String) (w : String) : ℝ :=
  Real.log (2 / (df ws1 ws2 w + 1))

/-- The set all_words = set(words1 + words2). -/
def allWords (ws1 ws2 : List String) : Finset String := (ws1 ++ ws2).toFinset

/-- Dot product of the two TF-IDF vectors indexed by all_words. -/
noncomputable def tfidfDot (ws1 ws2 : List String) : ℝ :=
  ∑ w ∈ allWords ws1 ws2,
    ((tf ws1 w : ℝ) * idf ws1 ws2 w) * ((tf ws2 w : ℝ) * idf ws1 ws2 w)

/-- Magnitude of the TF-IDF vector of the document base. -/
noncomputable def tfidfMagnitude (ws1 ws2 base : List String) : ℝ :=
  Real.sqrt (∑ w ∈ allWords ws1 ws2, ((tf base w : ℝ) * idf ws1 ws2 w) ^ 2)

open Classical in
/-- EmbeddingService._tfidf_similarity on the token lists: 0 when either
token list or either magnitude is zero, otherwise the cosine of the two
TF-IDF vectors. -/
noncomputable def tfidfSimilarityTokens (ws1 ws2 : List String) : ℝ :=
  if ws1 = [] ∨ ws2 = [] then 0
  else
    if tfidfMagnitude ws1 ws2 ws1 = 0 ∨ tfidfMagnitude ws1 ws2 ws2 = 0 then 0
    else tfidfDot ws1 ws2 / (tfidfMagnitude ws1 ws2 ws1 * tfidfMagnitude ws1 ws2 ws2)

/-- EmbeddingService._tfidf_similarity. -/
noncomputable def tfidfSimilarity (text1 text2 : String) : ℝ :=
  tfidfSimilarityTokens (tokenize text1) (tokenize text2)

/-- EmbeddingService._fallback_similarity: Jaccard similarity of the
lowercase whitespace-tokenized word sets. -/
def fallbackSimilarity (text1 text2 : String) : ℚ :=
  let words1 := (wordsAux (lowerString text1).toList []).toFinset
  let words2 := (wordsAux (lowerString text2).toList []).toFinset
  let intersection := (words1 ∩ words2).card
  let union := (words1 ∪ words2).card
  if union = 0 then 0 else (intersection : ℚ) / (union : ℚ)

/-- EmbeddingService.calculate_similarity: the backend when one is loaded
(self.model is not None), otherwise the local TF-IDF rung. The Jaccard
rung (_fallback_similarity) is reached when a rung raises. -/
noncomputable def calculateSimilarity
    (model : Option (String → String → ℝ)) (text1 text2 : String) : ℝ :=
  match model with
  | some backend => backend text1 text2
  | none => tfidfSimilarity text1 text2

/-! ## Theorems -/

/-- C1: for every triple of sub-scores held in the state, _score_calculation
computes the final score as the fixed weighted sum
0.4 * keyword + 0.4 * semantic + 0.2 * ats. -/
theorem C1_final_score_is_fixed_weighted_sum (state : EvalState) :
    (scoreCalculation state).final_score =
      0.4 * state.keyword_score + 0.4 * state.semantic_score
        + 0.2 * state.ats_score := by
  show state.keyword_score * 0.4 + state.semantic_score * 0.4
      + state.ats_score * 0.2 = _
  ring

/-- C2: the verdict is exactly High at final score 80 and above, Medium on
[60, 80), Low below 60: the bands partition the line with inclusive lower
bounds, and _score_calculation assigns the verdict as this pure function of
its final score. -/
theorem C2_verdict_thresholds :
    (∀ s : ℚ, (generateVerdict s = "High" ↔ 80 ≤ s) ∧
      (generateVerdict s = "Medium" ↔ 60 ≤ s ∧ s < 80) ∧
      (generateVerdict s = "Low" ↔ s < 60)) ∧
    (∀ state : EvalState, (scoreCalculation state).verdict =
      generateVerdict (scoreCalculation state).final_score) := by
  constructor
  · intro s
    unfold generateVerdict
    split_ifs with h1 h2
    · refine ⟨⟨fun _ => h1, fun _ => rfl⟩,
        ⟨fun h => absurd h (by decide), fun h => absurd h1 (not_le.mpr h.2)⟩,
        ⟨fun h => absurd h (by decide), fun h => absurd h1 (by linarith)⟩⟩
    · exact ⟨⟨fun h => absurd h (by decide), fun h => absurd h h1⟩,
        ⟨fun _ => ⟨h2, lt_of_not_le h1⟩, fun _ => rfl⟩,
        ⟨fun h => absurd h (by decide), fun h => absurd h2 (not_le.mpr h)⟩⟩
    · exact ⟨⟨fun h => absurd h (by decide), fun h => absurd h h1⟩,
        ⟨fun h => absurd h (by decide), fun h => absurd h.1 h2⟩,
        ⟨fun _ => lt_of_not_le h2, fun _ => rfl⟩⟩
  · intro state
    rfl

/-- Helper: the guarded coverage term of the source, with the weight on the
other side. -/
lemma coverage_if_comm (n : ℕ) (f w : ℚ) :
    (if 0 < n then (f / (n : ℚ)) * w else 0)
      = w * (if n = 0 then 0 else f / (n : ℚ)) := by
  rcases Nat.eq_zero_or_pos n with h | h
  · simp [h]
  · rw [if_pos h, if_neg (Nat.pos_iff_ne_zero.mp h)]
    ring

/-- Closed form of the keyword score: the guards of the source collapse
into per-set coverages that are 0 on an empty set. -/
lemma calculateKeywordScore_eq (resume : ResumeData) (jd : JdData) :
    calculateKeywordScore resume jd =
      100 * (0.7 * (if jd.must_have_skills.length = 0 then 0 else
          (countFound jd.must_have_skills resume : ℚ)
            / (jd.must_have_skills.length : ℚ))
        + 0.3 * (if jd.good_to_have_skills.length = 0 then 0 else
          (countFound jd.good_to_have_skills resume : ℚ)
            / (jd.good_to_have_skills.length : ℚ))) := by
  simp only [calculateKeywordScore]
  by_cases h : jd.must_have_skills.length + jd.good_to_have_skills.length = 0
  · have h1 : jd.must_have_skills.length = 0 := by omega
    have h2 : jd.good_to_have_skills.length = 0 := by omega
    rw [if_pos h, h1, h2]
    norm_num
  · rw [if_neg h, coverage_if_comm, coverage_if_comm]
    ring

/-- C3: the lexical score is 100 * (0.7 * must-have coverage + 0.3 *
good-to-have coverage), each coverage being the count of requirement items
found case-insensitively in the resume skills over the size of that set,
an empty set contributing 0 (hence 0 when both are empty); on
skills = [python, sql] against must-have = [python, sql] with empty
good-to-have the score is exactly 70. -/
theorem C3_lexical_score_formula :
    (∀ (resume : ResumeData) (jd : JdData),
      calculateKeywordScore resume jd =
        100 * (0.7 * (if jd.must_have_skills.length = 0 then 0 else
            (countFound jd.must_have_skills resume : ℚ)
              / (jd.must_have_skills.length : ℚ))
          + 0.3 * (if jd.good_to_have_skills.length = 0 then 0 else
            (countFound jd.good_to_have_skills resume : ℚ)
              / (jd.good_to_have_skills.length : ℚ)))) ∧
    calculateKeywordScore ⟨["python", "sql"], [], [], ""⟩
      ⟨"", ["python", "sql"], [], []⟩ = 70 := by
  constructor
  · exact calculateKeywordScore_eq
  · with_unfolding_all rfl

/-- C7: the missing skills reported by the gap analysis are disjoint from
the must-have skills counted as found by the lexical matcher: both use the
same case-insensitive membership test on the lowercased resume skills. -/
theorem C7_missing_disjoint_from_found (resume : ResumeData) (jd : JdData) :
    List.Disjoint (findMissingElements resume jd).missing_skills
      (foundSkills jd.must_have_skills resume) := by
  intro s hmiss hfound
  unfold findMissingElements at hmiss
  unfold foundSkills at hfound
  simp only [List.mem_filter] at hmiss hfound
  rw [hfound.2] at hmiss
  exact absurd hmiss.2 (by decide)

/-- C7 witness: the disjointness instantiated at a resume holding python
against must-have [python, sql]. -/
theorem C7_disjoint_witness :
    List.Disjoint (findMissingElements ⟨["python"], [], [], ""⟩
        ⟨"", ["python", "sql"], [], []⟩).missing_skills
      (foundSkills ["python", "sql"] ⟨["python"], [], [], ""⟩) :=
  C7_missing_disjoint_from_found ⟨["python"], [], [], ""⟩
    ⟨"", ["python", "sql"], [], []⟩

/-- C9 counterexample: duplicating the must-have requirement python (held
by the resume, while sql is not) changes the lexical score, so requirement
lists are NOT deduplicated before scoring: the duplicated list gives
140/3 and the deduplicated list gives 35. -/
theorem C9_counterexample :
    calculateKeywordScore ⟨["python"], [], [], ""⟩
        ⟨"", ["python", "python", "sql"], [], []⟩ ≠
      calculateKeywordScore ⟨["python"], [], [], ""⟩
        ⟨"", ["python", "sql"], [], []⟩ := by
  rw [show calculateKeywordScore ⟨["python"], [], [], ""⟩
      ⟨"", ["python", "python", "sql"], [], []⟩ = 140 / 3 from by
    with_unfolding_all rfl]
  rw [show calculateKeywordScore ⟨["python"], [], [], ""⟩
      ⟨"", ["python", "sql"], [], []⟩ = 35 from by with_unfolding_all rfl]
  norm_num

/-- Helper: the found count of a consed requirement list splits off the
match indicator of the head. -/
lemma countFound_cons (d : String) (req : List String) (resume : ResumeData) :
    countFound (d :: req) resume =
      (if (lowerSkills resume).contains (lowerString d) then 1 else 0)
        + countFound req resume := by
  unfold countFound foundSkills
  rw [List.filter_cons]
  split_ifs with h
  · simp only [List.length_cons]
    omega
  · simp

/-- Helper: the weighted-score equation of a duplicated must-have item is
equivalent to a linear relation on the found count. -/
lemma dup_coverage_iff (f n G : ℚ) (hn : n ≠ 0) (hn1 : n + 1 ≠ 0) (i : ℚ) :
    (100 * (0.7 * ((i + f) / (n + 1)) + 0.3 * G)
        = 100 * (0.7 * (f / n) + 0.3 * G))
      ↔ i * n = f := by
  constructor
  · intro h
    have hx : (i + f) / (n + 1) = f / n := by linarith
    rw [div_eq_div_iff hn1 hn] at hx
    linear_combination hx
  · intro h
    have hx : (i + f) / (n + 1) = f / n := by
      rw [div_eq_div_iff hn1 hn]
      linear_combination h
    linarith

/-- C9 as amended: duplicate skills are NOT deduplicated; each occurrence
counts in both the found count and the set size, so duplicating a
must-have item d already present leaves the lexical score unchanged
exactly when the found count equals the set size (d matched) or zero
(d unmatched); otherwise the two scores differ. -/
theorem C9_amended_duplicates_with_multiplicity (resume : ResumeData)
    (jd : JdData) (d : String) (hd : d ∈ jd.must_have_skills) :
    (calculateKeywordScore resume
        { jd with must_have_skills := d :: jd.must_have_skills }
      = calculateKeywordScore resume jd)
    ↔ ((countFound jd.must_have_skills resume : ℚ) =
        if (lowerSkills resume).contains (lowerString d) then
          (jd.must_have_skills.length : ℚ) else 0) := by
  have hn : jd.must_have_skills.length ≠ 0 := by
    intro h0
    rw [List.length_eq_zero] at h0
    rw [h0] at hd
    exact absurd hd (List.not_mem_nil d)
  have hnq : (jd.must_have_skills.length : ℚ) ≠ 0 := Nat.cast_ne_zero.mpr hn
  have hnq1 : ((jd.must_have_skills.length : ℚ) + 1) ≠ 0 := by positivity
  rw [calculateKeywordScore_eq, calculateKeywordScore_eq]
  simp only [List.length_cons, countFound_cons]
  rw [if_neg (by omega : ¬(jd.must_have_skills.length + 1 = 0)), if_neg hn]
  by_cases hc : (lowerSkills resume).contains (lowerString d) = true
  · rw [if_pos hc, if_pos hc]
    push_cast
    refine (dup_coverage_iff (countFound jd.must_have_skills resume : ℚ)
      (jd.must_have_skills.length : ℚ) _ hnq hnq1 1).trans ?_
    constructor
    · intro h
      linarith
    · intro h
      linarith
  · rw [if_neg hc, if_neg hc]
    push_cast
    refine (dup_coverage_iff (countFound jd.must_have_skills resume : ℚ)
      (jd.must_have_skills.length : ℚ) _ hnq hnq1 0).trans ?_
    constructor
    · intro h
      linarith
    · intro h
      linarith

/-- C9 witness: the amended equivalence instantiated at a resume holding
python against must-have [python, sql] and the duplicated item sql: both
sides of the equivalence are false. -/
theorem C9_amended_witness :
    (calculateKeywordScore ⟨["python"], [], [], ""⟩
        { description := "", must_have_skills := ["sql", "python", "sql"],
          good_to_have_skills := [], qualifications := [] }
      = calculateKeywordScore ⟨["python"], [], [], ""⟩
        ⟨"", ["python", "sql"], [], []⟩)
    ↔ ((countFound ["python", "sql"] ⟨["python"], [], [], ""⟩ : ℚ) =
        if (lowerSkills ⟨["python"], [], [], ""⟩).contains
            (lowerString "sql") then
          ((["python", "sql"] : List String).length : ℚ) else 0) :=
  C9_amended_duplicates_with_multiplicity ⟨["python"], [], [], ""⟩
    ⟨"", ["python", "sql"], [], []⟩ "sql" (by decide)

/-- C6 counterexample: on the text consisting of just a table marker with
an empty record, the compatibility score is 0, not 10: besides the table
(-30) and the three missing sections (-20, -25, -15) the text has neither
an email nor a phone pattern, so the contact check subtracts another 10. -/
theorem C6_counterexample :
    (checkCompatibility "<table>" ⟨[], [], [], "<table>"⟩).score = 0 ∧
    (checkCompatibility "<table>" ⟨[], [], [], "<table>"⟩).score ≠ 10 := by
  have h : (checkCompatibility "<table>" ⟨[], [], [], "<table>"⟩).score = 0 := by
    with_unfolding_all rfl
  refine ⟨h, ?_⟩
  rw [h]
  norm_num

/-- C6 as amended: when the table marker is the only detected anti-pattern
and the text contains both contact patterns, a record with no skills, no
experience and no education yields score max(0, 100-30-20-25-15) = 10 and
a false friendly flag; in general the friendly flag is true exactly when
the floored score is at least 70. The scenario text of the spec, having no
contact information, additionally incurs the -10 contact penalty. -/
theorem C6_amended_table_scenario (text : String) (rd : ResumeData)
    (htable : hasTagMatch "<table".toList (lowerString text).toList = true)
    (hdiv : hasStyledTagMatch "<div".toList (lowerString text).toList = false)
    (hspan : hasStyledTagMatch "<span".toList (lowerString text).toList = false)
    (hspecial : specialCharCount text ≤ 10)
    (himg : hasTagMatch "<img".toList (lowerString text).toList = false)
    (hcol1 : containsSeq "column-count".toList (lowerString text).toList = false)
    (hcol2 : containsSeq "column-width".toList (lowerString text).toList = false)
    (hcol3 : containsSeq "column-gap".toList (lowerString text).toList = false)
    (hhead : hasTagMatch "<header".toList (lowerString text).toList = false)
    (hfoot : hasTagMatch "<footer".toList (lowerString text).toList = false)
    (hinput : hasTagMatch "<input".toList (lowerString text).toList = false)
    (harea : hasTagMatch "<textarea".toList (lowerString text).toList = false)
    (hemail : emailFound text = true) (hphone : phoneFound text = true)
    (hskills : rd.skills = []) (hexp : rd.experience = [])
    (hedu : rd.education = []) :
    (checkCompatibility text rd).score = 10 ∧
    (checkCompatibility text rd).is_ats_friendly = false ∧
    (∀ (t : String) (r : ResumeData),
      (checkCompatibility t r).is_ats_friendly = true ↔
        70 ≤ (checkCompatibility t r).score) := by
  have hdet : atsDetect text rd = (["Contains tables", "Missing skills section",
      "Missing experience section", "Missing education section"], 10) := by
    simp only [atsDetect]
    rw [htable, hdiv, hspan, himg, hcol1, hcol2, hcol3, hhead, hfoot, hinput,
      harea, hemail, hphone, hskills, hexp, hedu]
    simp only [Bool.or_self, Bool.or_false, Bool.false_or, List.isEmpty_nil,
      decide_eq_true_eq]
    rw [decide_eq_false (by omega : ¬(10 < specialCharCount text))]
    norm_num [penalize]
  refine ⟨?_, ?_, ?_⟩
  · show max 0 (atsDetect text rd).2 = 10
    rw [hdet]
    norm_num
  · show decide (70 ≤ (atsDetect text rd).2) = false
    rw [hdet]
    norm_num
  · intro t r
    show decide (70 ≤ (atsDetect t r).2) = true ↔ 70 ≤ max 0 (atsDetect t r).2
    rw [decide_eq_true_iff, le_max_iff]
    constructor
    · intro h
      exact Or.inr h
    · intro h
      rcases h with h | h
      · norm_num at h
      · exact h

/-- C6 witness: the amended statement instantiated at a text holding a
table marker, an email and a phone number, with an otherwise empty
record. -/
theorem C6_amended_witness :
    (checkCompatibility "<table> a@bc.co 123-456-7890" ⟨[], [], [], ""⟩).score
      = 10 ∧
    (checkCompatibility "<table> a@bc.co 123-456-7890"
      ⟨[], [], [], ""⟩).is_ats_friendly = false ∧
    (∀ (t : String) (r : ResumeData),
      (checkCompatibility t r).is_ats_friendly = true ↔
        70 ≤ (checkCompatibility t r).score) :=
  C6_amended_table_scenario "<table> a@bc.co 123-456-7890" ⟨[], [], [], ""⟩
    (by decide) (by decide) (by decide) (by decide) (by decide) (by decide)
    (by decide) (by decide) (by decide) (by decide) (by decide) (by decide)
    (by decide) (by decide) rfl rfl rfl

/-- C10: whenever the compatibility checker judges the resume ATS friendly
(raw score at least 70) the returned quick-fix list is empty, even when
issues were detected; quick fixes are produced only for non-friendly
resumes, while the main issues are always the first three detected issues
in detection order. -/
theorem C10_quick_fixes_only_when_not_friendly (text : String)
    (rd : ResumeData) :
    ((checkCompatibility text rd).is_ats_friendly = true →
      (checkCompatibility text rd).quick_fixes = []) ∧
    (checkCompatibility text rd).main_issues = (atsDetect text rd).1.take 3 := by
  constructor
  · intro h
    have hd : decide (70 ≤ (atsDetect text rd).2) = true := h
    show (if decide (70 ≤ (atsDetect text rd).2) = true then ([] : List String)
      else _).take 3 = []
    rw [if_pos hd]
    rfl
  · rfl

/-! ### Bound and monotonicity lemmas for the sub-scores -/

/-- Helper: the found count never exceeds the requirement-list length. -/
lemma countFound_le_length (req : List String) (resume : ResumeData) :
    countFound req resume ≤ req.length :=
  List.length_filter_le _ _

/-- Helper: each guarded coverage term lies in [0, 1]. -/
lemma coverage_bounds (len found : ℕ) (hle : found ≤ len) :
    0 ≤ (if len = 0 then (0 : ℚ) else (found : ℚ) / (len : ℚ)) ∧
    (if len = 0 then (0 : ℚ) else (found : ℚ) / (len : ℚ)) ≤ 1 := by
  split_ifs with h
  · norm_num
  · have hpos : (0 : ℚ) < (len : ℚ) :=
      Nat.cast_pos.mpr (Nat.pos_of_ne_zero h)
    constructor
    · positivity
    · rw [div_le_one hpos]
      exact_mod_cast hle

/-- Helper: the keyword score is nonnegative. -/
lemma calculateKeywordScore_nonneg (resume : ResumeData) (jd : JdData) :
    0 ≤ calculateKeywordScore resume jd := by
  rw [calculateKeywordScore_eq]
  obtain ⟨h1, _⟩ := coverage_bounds jd.must_have_skills.length
    (countFound jd.must_have_skills resume)
    (countFound_le_length jd.must_have_skills resume)
  obtain ⟨h2, _⟩ := coverage_bounds jd.good_to_have_skills.length
    (countFound jd.good_to_have_skills resume)
    (countFound_le_length jd.good_to_have_skills resume)
  linarith

/-- Helper: the keyword score is at most 100. -/
lemma calculateKeywordScore_le_100 (resume : ResumeData) (jd : JdData) :
    calculateKeywordScore resume jd ≤ 100 := by
  rw [calculateKeywordScore_eq]
  obtain ⟨_, h1⟩ := coverage_bounds jd.must_have_skills.length
    (countFound jd.must_have_skills resume)
    (countFound_le_length jd.must_have_skills resume)
  obtain ⟨_, h2⟩ := coverage_bounds jd.good_to_have_skills.length
    (countFound jd.good_to_have_skills resume)
    (countFound_le_length jd.good_to_have_skills resume)
  linarith

/-- Helper: a penalty step never raises the score. -/
lemma penalize_snd_le (f : Bool) (i : String) (p : ℚ)
    (acc : List String × ℚ) (hp : 0 ≤ p) :
    (penalize f i p acc).2 ≤ acc.2 := by
  unfold penalize
  split_ifs
  · show acc.2 - p ≤ acc.2
    linarith
  · exact le_rfl

/-- Helper: the raw detection score never exceeds its starting value 100. -/
lemma atsDetect_snd_le_100 (t : String) (r : ResumeData) :
    (atsDetect t r).2 ≤ 100 := by
  simp only [atsDetect]
  refine le_trans (penalize_snd_le _ _ _ _ (by norm_num)) ?_
  refine le_trans (penalize_snd_le _ _ _ _ (by norm_num)) ?_
  refine le_trans (penalize_snd_le _ _ _ _ (by norm_num)) ?_
  refine le_trans (penalize_snd_le _ _ _ _ (by norm_num)) ?_
  refine le_trans (penalize_snd_le _ _ _ _ (by norm_num)) ?_
  refine le_trans (penalize_snd_le _ _ _ _ (by norm_num)) ?_
  refine le_trans (penalize_snd_le _ _ _ _ (by norm_num)) ?_
  refine le_trans (penalize_snd_le _ _ _ _ (by norm_num)) ?_
  refine le_trans (penalize_snd_le _ _ _ _ (by norm_num)) ?_
  refine le_trans (penalize_snd_le _ _ _ _ (by norm_num)) ?_
  refine le_trans (penalize_snd_le _ _ _ _ (by norm_num)) ?_
  exact le_rfl

/-- Helper: the compatibility score is nonnegative (floor at 0). -/
lemma checkCompatibility_score_nonneg (t : String) (r : ResumeData) :
    0 ≤ (checkCompatibility t r).score :=
  le_max_left 0 _

/-- Helper: the compatibility score is at most 100. -/
lemma checkCompatibility_score_le_100 (t : String) (r : ResumeData) :
    (checkCompatibility t r).score ≤ 100 := by
  show max 0 (atsDetect t r).2 ≤ 100
  exact max_le (by norm_num) (atsDetect_snd_le_100 t r)

/-- Helper: a penalty step is monotone when the second flag implies the
first and the accumulated scores compare. -/
lemma penalize_snd_mono (f g : Bool) (i : String) (p : ℚ)
    (acc acc2 : List String × ℚ) (hfg : g = true → f = true) (hp : 0 ≤ p)
    (h : acc.2 ≤ acc2.2) :
    (penalize f i p acc).2 ≤ (penalize g i p acc2).2 := by
  unfold penalize
  cases f <;> cases g <;> simp_all <;> linarith

/-- Helper: consing a skill onto the resume never lowers the raw
detection score: the only flag that can change is the missing-skills one,
and it can only switch off. -/
lemma atsDetect_snd_mono_skills (t : String) (r : ResumeData) (s : String) :
    (atsDetect t r).2 ≤ (atsDetect t { r with skills := s :: r.skills }).2 := by
  simp only [atsDetect]
  refine penalize_snd_mono _ _ _ _ _ _ (fun h => h) (by norm_num) ?_
  refine penalize_snd_mono _ _ _ _ _ _ (fun h => h) (by norm_num) ?_
  refine penalize_snd_mono _ _ _ _ _ _ (fun h => h) (by norm_num) ?_
  refine penalize_snd_mono _ _ _ _ _ _ ?_ (by norm_num) le_rfl
  intro h
  simp at h

/-- Helper: consing a skill onto the resume never lowers the compatibility
score. -/
lemma checkCompatibility_score_mono_skills (t : String) (r : ResumeData)
    (s : String) :
    (checkCompatibility t r).score ≤
      (checkCompatibility t { r with skills := s :: r.skills }).score :=
  max_le_max le_rfl (atsDetect_snd_mono_skills t r s)

/-- Helper: consing a skill never lowers a found count. -/
lemma countFound_mono_cons (req : List String) (resume : ResumeData)
    (s : String) :
    countFound req resume ≤
      countFound req { resume with skills := s :: resume.skills } := by
  unfold countFound foundSkills
  refine List.Sublist.length_le (List.monotone_filter_right _ ?_)
  intro a ha
  show (lowerString s :: lowerSkills resume).contains (lowerString a) = true
  rw [List.contains_cons]
  rw [ha]
  simp

/-- Helper: consing a skill never lowers the keyword score. -/
lemma calculateKeywordScore_mono_cons (resume : ResumeData) (jd : JdData)
    (s : String) :
    calculateKeywordScore resume jd ≤
      calculateKeywordScore { resume with skills := s :: resume.skills } jd := by
  rw [calculateKeywordScore_eq, calculateKeywordScore_eq]
  have g1 : (if jd.must_have_skills.length = 0 then (0 : ℚ) else
        (countFound jd.must_have_skills resume : ℚ)
          / (jd.must_have_skills.length : ℚ)) ≤
      (if jd.must_have_skills.length = 0 then (0 : ℚ) else
        (countFound jd.must_have_skills
            { resume with skills := s :: resume.skills } : ℚ)
          / (jd.must_have_skills.length : ℚ)) := by
    split_ifs with h
    · exact le_rfl
    · have hpos : (0 : ℚ) < (jd.must_have_skills.length : ℚ) :=
        Nat.cast_pos.mpr (Nat.pos_of_ne_zero h)
      exact (div_le_div_right hpos).mpr
        (by exact_mod_cast countFound_mono_cons jd.must_have_skills resume s)
  have g2 : (if jd.good_to_have_skills.length = 0 then (0 : ℚ) else
        (countFound jd.good_to_have_skills resume : ℚ)
          / (jd.good_to_have_skills.length : ℚ)) ≤
      (if jd.good_to_have_skills.length = 0 then (0 : ℚ) else
        (countFound jd.good_to_have_skills
            { resume with skills := s :: resume.skills } : ℚ)
          / (jd.good_to_have_skills.length : ℚ)) := by
    split_ifs with h
    · exact le_rfl
    · have hpos : (0 : ℚ) < (jd.good_to_have_skills.length : ℚ) :=
        Nat.cast_pos.mpr (Nat.pos_of_ne_zero h)
      exact (div_le_div_right hpos).mpr
        (by exact_mod_cast countFound_mono_cons jd.good_to_have_skills resume s)
  linarith

/-- C4 counterexample: with a backend returning cosine similarity -1, the
pipeline returns semantic_score -100, outside [0, 100]: _semantic_analysis
multiplies the similarity by 100 with no clamping, so an out-of-range
sub-score is propagated, not clamped. -/
theorem C4_counterexample :
    (basicEvaluationPipeline (fun _ _ => -1) ⟨[], [], [], ""⟩
        ⟨"", [], [], []⟩).semantic_score = -100 ∧
    ¬(0 ≤ (basicEvaluationPipeline (fun _ _ => -1) ⟨[], [], [], ""⟩
        ⟨"", [], [], []⟩).semantic_score) := by
  have h : (basicEvaluationPipeline (fun _ _ => -1) ⟨[], [], [], ""⟩
      ⟨"", [], [], []⟩).semantic_score = -100 := by
    show (-1 : ℚ) * 100 = -100
    norm_num
  refine ⟨h, ?_⟩
  rw [h]
  norm_num

/-- C4 as amended: when the backend similarity lies in [0, 1], every
sub-score and the final score of the pipeline lie in [0, 100]; no clamping
is performed anywhere, so a similarity outside [0, 1] propagates into an
out-of-range semantic and final score. -/
theorem C4_amended_scores_bounded (similarity : String → String → ℚ)
    (resume : ResumeData) (jd : JdData)
    (h0 : ∀ a b, 0 ≤ similarity a b) (h1 : ∀ a b, similarity a b ≤ 1) :
    (0 ≤ (basicEvaluationPipeline similarity resume jd).keyword_score ∧
      (basicEvaluationPipeline similarity resume jd).keyword_score ≤ 100) ∧
    (0 ≤ (basicEvaluationPipeline similarity resume jd).semantic_score ∧
      (basicEvaluationPipeline similarity resume jd).semantic_score ≤ 100) ∧
    (0 ≤ (basicEvaluationPipeline similarity resume jd).ats_score ∧
      (basicEvaluationPipeline similarity resume jd).ats_score ≤ 100) ∧
    (0 ≤ (basicEvaluationPipeline similarity resume jd).final_score ∧
      (basicEvaluationPipeline similarity resume jd).final_score ≤ 100) := by
  have hk1 := calculateKeywordScore_nonneg resume jd
  have hk2 := calculateKeywordScore_le_100 resume jd
  have hs1 := h0 resume.extracted_text jd.description
  have hs2 := h1 resume.extracted_text jd.description
  have ha1 := checkCompatibility_score_nonneg resume.extracted_text resume
  have ha2 := checkCompatibility_score_le_100 resume.extracted_text resume
  refine ⟨⟨hk1, hk2⟩, ⟨?_, ?_⟩, ⟨ha1, ha2⟩, ⟨?_, ?_⟩⟩
  · show 0 ≤ similarity resume.extracted_text jd.description * 100
    linarith
  · show similarity resume.extracted_text jd.description * 100 ≤ 100
    linarith
  · show 0 ≤ calculateKeywordScore resume jd * 0.4
      + similarity resume.extracted_text jd.description * 100 * 0.4
      + (checkCompatibility resume.extracted_text resume).score * 0.2
    linarith
  · show calculateKeywordScore resume jd * 0.4
      + similarity resume.extracted_text jd.description * 100 * 0.4
      + (checkCompatibility resume.extracted_text resume).score * 0.2 ≤ 100
    linarith

/-- C4 witness: the amended bounds instantiated at a constant backend
similarity of one half and a small concrete pair. -/
theorem C4_amended_witness :
    (0 ≤ (basicEvaluationPipeline (fun _ _ => 1 / 2) ⟨["go"], [], [], ""⟩
        ⟨"", ["go"], [], []⟩).keyword_score ∧
      (basicEvaluationPipeline (fun _ _ => 1 / 2) ⟨["go"], [], [], ""⟩
        ⟨"", ["go"], [], []⟩).keyword_score ≤ 100) ∧
    (0 ≤ (basicEvaluationPipeline (fun _ _ => 1 / 2) ⟨["go"], [], [], ""⟩
        ⟨"", ["go"], [], []⟩).semantic_score ∧
      (basicEvaluationPipeline (fun _ _ => 1 / 2) ⟨["go"], [], [], ""⟩
        ⟨"", ["go"], [], []⟩).semantic_score ≤ 100) ∧
    (0 ≤ (basicEvaluationPipeline (fun _ _ => 1 / 2) ⟨["go"], [], [], ""⟩
        ⟨"", ["go"], [], []⟩).ats_score ∧
      (basicEvaluationPipeline (fun _ _ => 1 / 2) ⟨["go"], [], [], ""⟩
        ⟨"", ["go"], [], []⟩).ats_score ≤ 100) ∧
    (0 ≤ (basicEvaluationPipeline (fun _ _ => 1 / 2) ⟨["go"], [], [], ""⟩
        ⟨"", ["go"], [], []⟩).final_score ∧
      (basicEvaluationPipeline (fun _ _ => 1 / 2) ⟨["go"], [], [], ""⟩
        ⟨"", ["go"], [], []⟩).final_score ≤ 100) :=
  C4_amended_scores_bounded (fun _ _ => 1 / 2) ⟨["go"], [], [], ""⟩
    ⟨"", ["go"], [], []⟩ (fun _ _ => by norm_num) (fun _ _ => by norm_num)

/-- C8: for a must-have skill reported missing, adding it to the resume
skills never decreases the keyword score or the final pipeline score, and
the added skill is no longer reported missing. -/
theorem C8_adding_missing_skill_monotone (similarity : String → String → ℚ)
    (resume : ResumeData) (jd : JdData) (s : String)
    (hmiss : s ∈ (findMissingElements resume jd).missing_skills) :
    calculateKeywordScore resume jd ≤
      calculateKeywordScore { resume with skills := s :: resume.skills } jd ∧
    (basicEvaluationPipeline similarity resume jd).final_score ≤
      (basicEvaluationPipeline similarity
        { resume with skills := s :: resume.skills } jd).final_score ∧
    s ∉ (findMissingElements { resume with skills := s :: resume.skills }
        jd).missing_skills := by
  refine ⟨calculateKeywordScore_mono_cons resume jd s, ?_, ?_⟩
  · show calculateKeywordScore resume jd * 0.4
        + similarity resume.extracted_text jd.description * 100 * 0.4
        + (checkCompatibility resume.extracted_text resume).score * 0.2 ≤
      calculateKeywordScore { resume with skills := s :: resume.skills } jd
          * 0.4
        + similarity resume.extracted_text jd.description * 100 * 0.4
        + (checkCompatibility resume.extracted_text
            { resume with skills := s :: resume.skills }).score * 0.2
    have hk := calculateKeywordScore_mono_cons resume jd s
    have ha := checkCompatibility_score_mono_skills resume.extracted_text
      resume s
    linarith
  · intro hmem
    unfold findMissingElements at hmem
    rw [List.mem_filter] at hmem
    have h2 := hmem.2
    rw [show lowerSkills { resume with skills := s :: resume.skills }
        = lowerString s :: lowerSkills resume from rfl] at h2
    rw [List.contains_cons] at h2
    simp at h2

/-- C8 witness: the monotonicity statement instantiated with the missing
skill python added to an empty resume, against must-have [python]. -/
theorem C8_monotonicity_witness :
    "python" ∈ (findMissingElements ⟨[], [], [], ""⟩
        ⟨"", ["python"], [], []⟩).missing_skills ∧
    (calculateKeywordScore ⟨[], [], [], ""⟩ ⟨"", ["python"], [], []⟩ ≤
        calculateKeywordScore ⟨["python"], [], [], ""⟩
          ⟨"", ["python"], [], []⟩ ∧
      (basicEvaluationPipeline (fun _ _ => 0) ⟨[], [], [], ""⟩
          ⟨"", ["python"], [], []⟩).final_score ≤
        (basicEvaluationPipeline (fun _ _ => 0) ⟨["python"], [], [], ""⟩
          ⟨"", ["python"], [], []⟩).final_score ∧
      "python" ∉ (findMissingElements ⟨["python"], [], [], ""⟩
          ⟨"", ["python"], [], []⟩).missing_skills) :=
  ⟨by decide, C8_adding_missing_skill_monotone (fun _ _ => 0)
    ⟨[], [], [], ""⟩ ⟨"", ["python"], [], []⟩ "python" (by decide)⟩

/-! ### Bounds for the similarity fallback ladder -/

/-- Helper: the TF-IDF dot product is a sum of products of counts with a
squared IDF, hence nonnegative. -/
lemma tfidfDot_nonneg (ws1 ws2 : List String) : 0 ≤ tfidfDot ws1 ws2 := by
  unfold tfidfDot
  apply Finset.sum_nonneg
  intro w _
  have h : ((tf ws1 w : ℝ) * idf ws1 ws2 w) * ((tf ws2 w : ℝ) * idf ws1 ws2 w)
      = (tf ws1 w : ℝ) * (tf ws2 w : ℝ) * (idf ws1 ws2 w) ^ 2 := by ring
  rw [h]
  positivity

/-- Helper: Cauchy-Schwarz for the TF-IDF vectors. -/
lemma tfidfDot_le_mul_magnitudes (ws1 ws2 : List String) :
    tfidfDot ws1 ws2 ≤
      tfidfMagnitude ws1 ws2 ws1 * tfidfMagnitude ws1 ws2 ws2 := by
  unfold tfidfDot tfidfMagnitude
  exact Real.sum_mul_le_sqrt_mul_sqrt _ _ _

/-- Helper: the TF-IDF similarity of two token lists lies in [0, 1]. -/
lemma tfidfSimilarityTokens_bounds (ws1 ws2 : List String) :
    0 ≤ tfidfSimilarityTokens ws1 ws2 ∧ tfidfSimilarityTokens ws1 ws2 ≤ 1 := by
  unfold tfidfSimilarityTokens
  split_ifs with h1 h2
  · norm_num
  · norm_num
  · push_neg at h2
    obtain ⟨hm1, hm2⟩ := h2
    have hp1 : 0 < tfidfMagnitude ws1 ws2 ws1 :=
      lt_of_le_of_ne (Real.sqrt_nonneg _) (Ne.symm hm1)
    have hp2 : 0 < tfidfMagnitude ws1 ws2 ws2 :=
      lt_of_le_of_ne (Real.sqrt_nonneg _) (Ne.symm hm2)
    constructor
    · exact div_nonneg (tfidfDot_nonneg ws1 ws2) (le_of_lt (mul_pos hp1 hp2))
    · rw [div_le_one (mul_pos hp1 hp2)]
      exact tfidfDot_le_mul_magnitudes ws1 ws2

/-- C5: with no embedding backend loaded, calculate_similarity is the local
TF-IDF rung (raw term counts, IDF = ln(2/(df+1)), cosine of the two
vectors); that rung and the Jaccard rung used on failure both always
produce a value in [0, 1], and two empty texts give 0. -/
theorem C5_similarity_fallback_ladder :
    (∀ t1 t2 : String, calculateSimilarity none t1 t2 = tfidfSimilarity t1 t2) ∧
    (∀ t1 t2 : String,
      0 ≤ tfidfSimilarity t1 t2 ∧ tfidfSimilarity t1 t2 ≤ 1) ∧
    (∀ t1 t2 : String,
      0 ≤ fallbackSimilarity t1 t2 ∧ fallbackSimilarity t1 t2 ≤ 1) ∧
    calculateSimilarity none "" "" = 0 := by
  refine ⟨fun t1 t2 => rfl, fun t1 t2 => tfidfSimilarityTokens_bounds _ _,
    fun t1 t2 => ?_, ?_⟩
  · simp only [fallbackSimilarity]
    split_ifs with h
    · norm_num
    · have hpos : (0 : ℚ) <
          (((wordsAux (lowerString t1).toList []).toFinset ∪
            (wordsAux (lowerString t2).toList []).toFinset).card : ℚ) :=
        Nat.cast_pos.mpr (Nat.pos_of_ne_zero h)
      constructor
      · positivity
      · rw [div_le_one hpos]
        exact_mod_cast Finset.card_le_card Finset.inter_subset_union
  · show tfidfSimilarityTokens (tokenize "") (tokenize "") = 0
    rw [show tokenize "" = [] from rfl]
    unfold tfidfSimilarityTokens
    rw [if_pos (Or.inl rfl)]

end ResumeCheck
